import Mathlib

/-!
Shallow embedding of the agoraplay recording service.

The embedded code is `src/core/api_views.py` (the start / stop / query / list
endpoints over the `Recording` Django model of `src/core/models.py`) and
`src/core/agora_utils.py` (S3 file listing, presigned-url generation and
playback resolution).  Remote HTTP calls (the Agora cloud-recording API, the
boto3 S3 client) are modelled as explicit outcome parameters: each operation
receives the outcome the remote call would produce, and the embedding records
whether the upstream call was actually issued.

Machine details kept faithful to the Python:
  * `request.data.get(k)` missing / empty-string parameters are both falsy, so
    parameters are `String`s and the validation checks compare against `""`;
  * `resource_id` is checked for truthiness after acquire, `sid` is not, but
    `Recording.sid` is a non-null column, so a missing `sid` makes
    `Recording.objects.create` raise (caught by the generic handler);
  * `Recording.objects.create` enforces the `unique=True` constraints on
    `resource_id` and `sid`;
  * `if file_list:` treats an empty list as falsy, so an empty `fileList` is
    not stored;
  * Python `min(xs, key=len)` returns the FIRST element of minimal length.
-/

/-- One row of the `Recording` Django model (`src/core/models.py`).
`s3_file_list` is the JSON-encoded file list (`none` models the blank
default), timestamps are abstract instants (`Nat`). -/
structure RecordingRec where
  id : Nat
  resource_id : String
  sid : String
  channel_name : String
  recording_uid : String
  mode : String
  status : String
  s3_bucket : String
  s3_file_list : Option (List String)
  started_at : Nat
  stopped_at : Option Nat
deriving DecidableEq

/-- Body of the acquire response: `acquire_response.get("resourceId")`. -/
structure AcquireResp where
  resourceId : Option String
deriving DecidableEq

/-- Body of the start response: `start_response.get("sid")`. -/
structure StartResp where
  sid : Option String
deriving DecidableEq

/-- Field `fileList` of `serverResponse` in the stop response. -/
structure ServerResp where
  fileList : Option (List String)
deriving DecidableEq

/-- Body of the stop response: `stop_response.get("serverResponse")`. -/
structure StopResp where
  serverResponse : Option ServerResp
deriving DecidableEq

/-- Outcome environment for one `start_recording` request: what each remote
step would return if called (an `Except.error` models a raised exception),
plus the ambient clock and configured bucket. -/
structure StartEnv where
  acquire : Except String AcquireResp
  token : Except String String
  startR : Except String StartResp
  now : Nat
  bucket : String

/-- Outcome environment for one `stop_recording` request. -/
structure StopEnv where
  stopR : Except String StopResp
  now : Nat

/-- An HTTP-level response of a view: 200 with data, 400, or 500. -/
inductive ApiResp (α : Type) where
  | ok (data : α)
  | badRequest (msg : String)
  | serverError (msg : String)
deriving DecidableEq

/-- Whether a view response is a 200. -/
def ApiResp.isOk {α : Type} : ApiResp α → Bool
  | .ok _ => true
  | .badRequest _ => false
  | .serverError _ => false

/-- The 200 payload of `start_recording`. -/
structure StartData where
  resourceId : String
  sid : String
  recordingId : Nat
deriving DecidableEq

/-- Model of `Recording.objects.create`: rejects a duplicate `resource_id` or `sid`
(the model declares both columns `unique=True`), otherwise appends the row. -/
def recordingCreate (store : List RecordingRec) (r : RecordingRec) :
    Except String (List RecordingRec) :=
  if store.any (fun x => x.resource_id == r.resource_id || x.sid == r.sid) then
    Except.error "IntegrityError"
  else
    Except.ok (store ++ [r])

/-- Result of a `start_recording` request: the response and the store after. -/
structure StartOutcome where
  response : ApiResp StartData
  store : List RecordingRec
deriving DecidableEq

/-- Embeds `start_recording` of `src/core/api_views.py`: validate `channel` and
`uid`, acquire a resource, mint a token, start the recording, then persist
one `Recording` row with status `recording`; every failure returns an error
response without touching the store. -/
def start_recording (env : StartEnv) (store : List RecordingRec)
    (channel uid mode : String) : StartOutcome :=
  if channel = "" then
    ⟨.badRequest "channel parameter is required", store⟩
  else if uid = "" then
    ⟨.badRequest "uid parameter is required", store⟩
  else
    match env.acquire with
    | .error e => ⟨.serverError e, store⟩
    | .ok aresp =>
      if aresp.resourceId.getD "" = "" then
        ⟨.serverError "Failed to acquire recording resource", store⟩
      else
        match env.token with
        | .error e => ⟨.serverError e, store⟩
        | .ok _tok =>
          match env.startR with
          | .error e => ⟨.serverError e, store⟩
          | .ok sresp =>
            match sresp.sid with
            | none =>
              ⟨.serverError "IntegrityError: sid column is non-null", store⟩
            | some s =>
              match recordingCreate store
                  { id := store.length, resource_id := aresp.resourceId.getD "",
                    sid := s, channel_name := channel, recording_uid := uid,
                    mode := mode, status := "recording",
                    s3_bucket := env.bucket, s3_file_list := none,
                    started_at := env.now, stopped_at := none } with
              | .error e => ⟨.serverError e, store⟩
              | .ok store2 =>
                ⟨.ok ⟨aresp.resourceId.getD "", s, store.length⟩, store2⟩

/-- The filter `Recording.objects.get(resource_id=..., sid=...)` uses. -/
def recMatches (rid sd : String) (r : RecordingRec) : Bool :=
  r.resource_id == rid && r.sid == sd

/-- Result of a `stop_recording` request: the response, the store after, and
whether the upstream `stop_cloud_recording` HTTP call was issued. -/
structure StopOutcome where
  response : ApiResp (Option ServerResp)
  store : List RecordingRec
  upstreamCalled : Bool
deriving DecidableEq

/-- The effective file list of a stop response:
`server_response.get("fileList")` guarded by Python truthiness, so an empty
list counts as absent. -/
def stopFileKeys (resp : StopResp) : Option (List String) :=
  match (resp.serverResponse.getD ⟨none⟩).fileList with
  | some l => if l.isEmpty then none else some l
  | none => none

/-- Embeds `stop_recording` of `src/core/api_views.py`: validate the four
parameters, always call the upstream stop, then update the matching row
(status `stopped`, `stopped_at = now`, file list when the response carries a
non-empty one) — or mark it `failed` with `stopped_at = now` when the
upstream call raised; a missing row is ignored in both branches. -/
def stop_recording (env : StopEnv) (store : List RecordingRec)
    (resource_id sid channel uid mode : String) : StopOutcome :=
  if resource_id = "" ∨ sid = "" ∨ channel = "" ∨ uid = "" then
    ⟨.badRequest "resourceId, sid, channel, and uid are required", store, false⟩
  else
    match env.stopR with
    | .ok resp =>
      ⟨.ok resp.serverResponse,
       store.map (fun r =>
         if recMatches resource_id sid r then
           match stopFileKeys resp with
           | some l => { r with stopped_at := some env.now, status := "stopped",
                                s3_file_list := some l }
           | none => { r with stopped_at := some env.now, status := "stopped" }
         else r),
       true⟩
    | .error e =>
      ⟨.serverError e,
       store.map (fun r =>
         if recMatches resource_id sid r then
           { r with status := "failed", stopped_at := some env.now }
         else r),
       true⟩

/-- Body of the query response, kept opaque. -/
structure QueryResp where
  serverResponse : Option String
deriving DecidableEq

/-- Result of a `query_recording` request. -/
structure QueryOutcome where
  response : ApiResp (Option String)
  store : List RecordingRec
deriving DecidableEq

/-- Embeds `query_recording` of `src/core/api_views.py`: validate `resourceId` and
`sid`, call the upstream query, and pass its body through; the store is
never consulted or written. -/
def query_recording (env : Except String QueryResp) (store : List RecordingRec)
    (resource_id sid _mode : String) : QueryOutcome :=
  if resource_id = "" ∨ sid = "" then
    ⟨.badRequest "resourceId and sid parameters are required", store⟩
  else
    match env with
    | .error e => ⟨.serverError e, store⟩
    | .ok q => ⟨.ok q.serverResponse, store⟩

/-- Outcome of `s3_client.list_objects_v2`: a raised `ClientError`, or a
response whose `Contents` key may be absent. -/
inductive S3ListOutcome where
  | clientError (msg : String)
  | ok (contents : Option (List String))

/-- The dict `list_recording_files` returns. -/
structure FileLists where
  mp4_files : List String
  m3u8_files : List String
  ts_files : List String
  all_files : List String
deriving DecidableEq

/-- Python `str.endswith`: the suffix characters close the string. -/
def strEndsWith (s suf : String) : Bool :=
  suf.data.isSuffixOf s.data

/-- Embeds `list_recording_files` of `src/core/agora_utils.py`: list the keys under
the sid prefix and partition by suffix; a `ClientError` or a response with no
`Contents` yields four empty lists. -/
def list_recording_files (o : S3ListOutcome) : FileLists :=
  match o with
  | .clientError _ => ⟨[], [], [], []⟩
  | .ok none => ⟨[], [], [], []⟩
  | .ok (some keys) =>
    ⟨keys.filter (fun f => strEndsWith f ".mp4"),
     keys.filter (fun f => strEndsWith f ".m3u8"),
     keys.filter (fun f => strEndsWith f ".ts"),
     keys⟩

/-- Embeds `generate_presigned_url` of `src/core/agora_utils.py`: the boto3 call is
an outcome parameter; a `ClientError` is swallowed and `None` returned. -/
def generate_presigned_url (signOutcome : Except String String) : Option String :=
  match signOutcome with
  | .ok url => some url
  | .error _ => none

/-- Loop of Python `min(xs, key=len)` with current minimum `x`: a later
element replaces the minimum only when strictly shorter, so the first
element of minimal length wins. -/
def pyMinLenGo (x : String) : List String → String
  | [] => x
  | y :: ys => if y.length < x.length then pyMinLenGo y ys else pyMinLenGo x ys

/-- Python `min(xs, key=len)` (`None` on the empty list, which the source
never reaches because of the truthiness guard). -/
def pyMinLen : List String → Option String
  | [] => none
  | x :: xs => some (pyMinLenGo x xs)

/-- The dict `get_recording_playback_url` returns when files exist. -/
structure PlaybackInfo where
  url : Option String
  type : String
  mime_type : String
deriving DecidableEq

/-- Embeds `get_recording_playback_url` of `src/core/agora_utils.py`: prefer the
first mp4 key; otherwise the `min(..., key=len)` m3u8 key; otherwise `None`.
`signEnv` gives the boto3 presigning outcome per key. -/
def get_recording_playback_url (listing : S3ListOutcome)
    (signEnv : String → Except String String) : Option PlaybackInfo :=
  let files := list_recording_files listing
  match files.mp4_files with
  | mp4_file :: _ =>
    some ⟨generate_presigned_url (signEnv mp4_file), "mp4", "video/mp4"⟩
  | [] =>
    match pyMinLen files.m3u8_files with
    | some master =>
      some ⟨generate_presigned_url (signEnv master), "hls", "application/x-mpegURL"⟩
    | none => none

/-- The selection rule exactly as the spec words the hls tie-break: among the
m3u8 keys of minimal length, the lexicographically smallest (stated over the
character sequences, since key order is byte order). -/
def lexMinGo (x : String) : List String → String
  | [] => x
  | y :: ys => if y.data < x.data then lexMinGo y ys else lexMinGo x ys

/-- Spec-side pick for the streaming-manifest branch: the shortest key,
lexicographically smallest on equal length. -/
def claimHlsPick (l : List String) : Option String :=
  match l.filter (fun y => l.all (fun z => y.length ≤ z.length)) with
  | [] => none
  | x :: xs => some (lexMinGo x xs)

/-- The spec invariant: `stopped_at` is set exactly on terminal rows. -/
def stoppedIffTerminal (r : RecordingRec) : Prop :=
  r.stopped_at ≠ none ↔ (r.status = "stopped" ∨ r.status = "failed")

instance (r : RecordingRec) : Decidable (stoppedIffTerminal r) := by
  unfold stoppedIffTerminal; infer_instance

/-- Which upstream step of `start_recording` failed, when one did: the
acquire call raised, the acquire body carried no usable `resourceId`, the
token mint raised, or the start call raised. -/
def upstreamStepFails (env : StartEnv) : Prop :=
  (∃ e, env.acquire = .error e) ∨
  (∃ a, env.acquire = .ok a ∧ a.resourceId.getD "" = "") ∨
  (∃ e, env.token = .error e) ∨
  (∃ e, env.startR = .error e)

/-- A row already stopped at instant 5, used for the repeated-stop scenarios. -/
def stoppedRow : RecordingRec :=
  { id := 0, resource_id := "r1", sid := "s1", channel_name := "room",
    recording_uid := "999999", mode := "mix", status := "stopped",
    s3_bucket := "b", s3_file_list := some ["room_s1.mp4"],
    started_at := 1, stopped_at := some 5 }

/-- A stop environment whose upstream succeeds with no file list, at
instant 10. -/
def stopEnvOkAt10 : StopEnv :=
  { stopR := .ok ⟨some ⟨none⟩⟩, now := 10 }

/-- A row still in progress, used for the failing-stop scenario. -/
def recordingRow : RecordingRec :=
  { id := 0, resource_id := "r1", sid := "s1", channel_name := "room",
    recording_uid := "999999", mode := "mix", status := "recording",
    s3_bucket := "b", s3_file_list := none, started_at := 1,
    stopped_at := none }

/-- Helper: `query_recording` never writes the store. -/
theorem query_store_eq (env : Except String QueryResp) (store : List RecordingRec)
    (rid sd mode : String) : (query_recording env store rid sd mode).store = store := by
  unfold query_recording
  split
  · rfl
  · split <;> rfl

/-- Every row in the store after `start_recording` was already there, or is
the freshly created row: status `recording`, no `stopped_at`. -/
theorem mem_start_store (env : StartEnv) (store : List RecordingRec)
    (channel uid mode : String) :
    ∀ r ∈ (start_recording env store channel uid mode).store,
      r ∈ store ∨ (r.status = "recording" ∧ r.stopped_at = none) := by
  intro r hr
  unfold start_recording at hr
  split at hr
  · exact Or.inl hr
  split at hr
  · exact Or.inl hr
  split at hr
  · exact Or.inl hr
  · split at hr
    · exact Or.inl hr
    · split at hr
      · exact Or.inl hr
      · split at hr
        · exact Or.inl hr
        · split at hr
          · exact Or.inl hr
          · split at hr
            · exact Or.inl hr
            · rename_i heq
              unfold recordingCreate at heq
              split at heq
              · cases heq
              · cases heq
                rcases List.mem_append.mp hr with h1 | h2
                · exact Or.inl h1
                · rw [List.mem_singleton.mp h2]
                  exact Or.inr ⟨rfl, rfl⟩

/-- Every row in the store after `stop_recording` was already there, or has
been terminally marked (`stopped` or `failed`) with `stopped_at` set to the
call instant. -/
theorem mem_stop_store (env : StopEnv) (store : List RecordingRec)
    (rid sd ch uid mode : String) :
    ∀ r ∈ (stop_recording env store rid sd ch uid mode).store,
      r ∈ store ∨ (r.status = "stopped" ∧ r.stopped_at = some env.now) ∨
        (r.status = "failed" ∧ r.stopped_at = some env.now) := by
  intro r hr
  unfold stop_recording at hr
  split at hr
  · exact Or.inl hr
  split at hr
  · rcases List.mem_map.mp hr with ⟨x, hx, hfx⟩
    by_cases hm : recMatches rid sd x = true
    · rw [if_pos hm] at hfx
      rcases hk : stopFileKeys _ with _ | l <;> rw [hk] at hfx <;>
        · rw [← hfx]
          exact Or.inr (Or.inl ⟨rfl, rfl⟩)
    · rw [if_neg hm] at hfx
      rw [← hfx]
      exact Or.inl hx
  · rcases List.mem_map.mp hr with ⟨x, hx, hfx⟩
    by_cases hm : recMatches rid sd x = true
    · rw [if_pos hm] at hfx
      rw [← hfx]
      exact Or.inr (Or.inr ⟨rfl, rfl⟩)
    · rw [if_neg hm] at hfx
      rw [← hfx]
      exact Or.inl hx

/-- Claim C2: when any upstream step of start (acquire, token mint, or
startRecording) fails, the operation returns an error and persists nothing:
the store is exactly what it was. -/
theorem start_upstream_failure_creates_nothing (env : StartEnv)
    (store : List RecordingRec) (channel uid mode : String)
    (h : upstreamStepFails env) :
    (start_recording env store channel uid mode).store = store ∧
    (start_recording env store channel uid mode).response.isOk = false := by
  unfold start_recording
  split
  · exact ⟨rfl, rfl⟩
  split
  · exact ⟨rfl, rfl⟩
  rcases h with ⟨e, he⟩ | ⟨a, ha, har⟩ | ⟨e, he⟩ | ⟨e, he⟩
  · rw [he]
    exact ⟨rfl, rfl⟩
  · rw [ha]
    simp [har, ApiResp.isOk]
  · cases hacq : env.acquire with
    | error e2 => exact ⟨rfl, rfl⟩
    | ok a =>
      by_cases hrid : a.resourceId.getD "" = ""
      · simp [hrid, ApiResp.isOk]
      · simp [hrid, he, ApiResp.isOk]
  · cases hacq : env.acquire with
    | error e2 => exact ⟨rfl, rfl⟩
    | ok a =>
      by_cases hrid : a.resourceId.getD "" = ""
      · simp [hrid, ApiResp.isOk]
      · cases htok : env.token with
        | error e3 => simp [hrid, ApiResp.isOk]
        | ok t => simp [hrid, he, ApiResp.isOk]

/-- Witness for C2: with a failing acquire call, nothing is persisted. -/
theorem start_upstream_failure_creates_nothing_witness :
    (start_recording ⟨.error "boom", .ok "t", .ok ⟨some "s1"⟩, 3, "b"⟩ []
      "room" "999999" "mix").store = [] ∧
    (start_recording ⟨.error "boom", .ok "t", .ok ⟨some "s1"⟩, 3, "b"⟩ []
      "room" "999999" "mix").response.isOk = false :=
  start_upstream_failure_creates_nothing _ _ _ _ _ (Or.inl ⟨"boom", rfl⟩)

/-- Claim C3: a valid start whose acquire yields a usable resource id, whose
token mint succeeds and whose startRecording yields a sid persists exactly
one new row, with status `recording` and those (non-null) identifiers, and
returns it. -/
theorem start_success_creates_exactly_one (env : StartEnv)
    (store : List RecordingRec) (channel uid mode rid s tok : String)
    (hch : channel ≠ "") (huid : uid ≠ "")
    (hacq : env.acquire = .ok ⟨some rid⟩) (hrid : rid ≠ "")
    (htok : env.token = .ok tok)
    (hstart : env.startR = .ok ⟨some s⟩)
    (hfresh : ∀ r ∈ store, r.resource_id ≠ rid ∧ r.sid ≠ s) :
    start_recording env store channel uid mode =
      ⟨.ok ⟨rid, s, store.length⟩,
       store ++ [{ id := store.length, resource_id := rid, sid := s,
                   channel_name := channel, recording_uid := uid, mode := mode,
                   status := "recording", s3_bucket := env.bucket,
                   s3_file_list := none, started_at := env.now,
                   stopped_at := none }]⟩ := by
  have hany : (store.any (fun x => x.resource_id == rid || x.sid == s)) = false := by
    rw [List.any_eq_false]
    intro x hx
    simp [(hfresh x hx).1, (hfresh x hx).2]
  unfold start_recording
  rw [if_neg hch, if_neg huid, hacq]
  simp [hrid, htok, hstart, recordingCreate, hany]

/-- Witness for C3: a concrete successful start appends the one new row. -/
theorem start_success_creates_exactly_one_witness :
    start_recording ⟨.ok ⟨some "res1"⟩, .ok "tok", .ok ⟨some "sid1"⟩, 3, "bkt"⟩
        [] "room" "999999" "mix" =
      ⟨.ok ⟨"res1", "sid1", 0⟩,
       [{ id := 0, resource_id := "res1", sid := "sid1", channel_name := "room",
          recording_uid := "999999", mode := "mix", status := "recording",
          s3_bucket := "bkt", s3_file_list := none, started_at := 3,
          stopped_at := none }]⟩ :=
  start_success_creates_exactly_one _ _ _ _ _ _ _ _ (by decide) (by decide)
    rfl (by decide) rfl rfl (by simp)

/-- Claim C5: every exposed operation preserves the invariant that
`stopped_at` is set exactly on rows whose status is `stopped` or `failed`,
so every store reachable through them satisfies it. -/
theorem lifecycle_preserves_stopped_iff_terminal
    (senv : StartEnv) (tenv : StopEnv) (qenv : Except String QueryResp)
    (store : List RecordingRec)
    (ch uid mode rid sd ch2 uid2 mode2 rid3 sd3 mode3 : String)
    (hstore : ∀ r ∈ store, stoppedIffTerminal r) :
    (∀ r ∈ (start_recording senv store ch uid mode).store,
        stoppedIffTerminal r) ∧
    (∀ r ∈ (stop_recording tenv store rid sd ch2 uid2 mode2).store,
        stoppedIffTerminal r) ∧
    (∀ r ∈ (query_recording qenv store rid3 sd3 mode3).store,
        stoppedIffTerminal r) := by
  refine ⟨?_, ?_, ?_⟩
  · intro r hr
    rcases mem_start_store senv store ch uid mode r hr with h | ⟨h1, h2⟩
    · exact hstore r h
    · unfold stoppedIffTerminal
      rw [h1, h2]
      simp
  · intro r hr
    rcases mem_stop_store tenv store rid sd ch2 uid2 mode2 r hr with
      h | ⟨h1, h2⟩ | ⟨h1, h2⟩
    · exact hstore r h
    · unfold stoppedIffTerminal
      rw [h1, h2]
      simp
    · unfold stoppedIffTerminal
      rw [h1, h2]
      simp
  · intro r hr
    rw [query_store_eq] at hr
    exact hstore r hr

/-- Witness for C5: the invariant holds after each operation run on the
empty store. -/
theorem lifecycle_preserves_stopped_iff_terminal_witness :
    (∀ r ∈ (start_recording ⟨.ok ⟨some "r1"⟩, .ok "t", .ok ⟨some "s1"⟩, 3, "b"⟩
        [] "room" "999999" "mix").store, stoppedIffTerminal r) ∧
    (∀ r ∈ (stop_recording ⟨.ok ⟨some ⟨none⟩⟩, 9⟩
        [] "r1" "s1" "room" "999999" "mix").store, stoppedIffTerminal r) ∧
    (∀ r ∈ (query_recording (.ok ⟨some "x"⟩) [] "r1" "s1" "mix").store,
        stoppedIffTerminal r) :=
  lifecycle_preserves_stopped_iff_terminal _ _ _ _ _ _ _ _ _ _ _ _ _ _ _
    (by simp)

/-- Claim C8: a stop whose upstream call raises marks the matching row
`failed` with `stopped_at = now` and returns an error — the failure is
recorded rather than the row being left in `recording`. -/
theorem stop_upstream_failure_marks_failed (env : StopEnv)
    (store : List RecordingRec) (rid sd ch uid mode : String)
    (r : RecordingRec) (e : String)
    (hrid : rid ≠ "") (hsd : sd ≠ "") (hch : ch ≠ "") (huid : uid ≠ "")
    (herr : env.stopR = .error e)
    (hr : r ∈ store) (hm : recMatches rid sd r = true)
    (hrec : r.status = "recording") :
    (stop_recording env store rid sd ch uid mode).response.isOk = false ∧
    (stop_recording env store rid sd ch uid mode).upstreamCalled = true ∧
    { r with status := "failed", stopped_at := some env.now } ∈
      (stop_recording env store rid sd ch uid mode).store := by
  unfold stop_recording
  rw [if_neg (by simp [hrid, hsd, hch, huid]), herr]
  refine ⟨rfl, rfl, ?_⟩
  have key : ({ r with status := "failed", stopped_at := some env.now }) =
      (fun x => if recMatches rid sd x then
          { x with status := "failed", stopped_at := some env.now }
        else x) r := by
    simp [hm]
  rw [key]
  exact List.mem_map_of_mem _ hr

/-- Witness for C8: a failing upstream stop on a recording row. -/
theorem stop_upstream_failure_marks_failed_witness :
    (stop_recording ⟨.error "gone", 10⟩ [recordingRow]
      "r1" "s1" "room" "999999" "mix").response.isOk = false ∧
    (stop_recording ⟨.error "gone", 10⟩ [recordingRow]
      "r1" "s1" "room" "999999" "mix").upstreamCalled = true ∧
    { recordingRow with status := "failed", stopped_at := some 10 } ∈
      (stop_recording ⟨.error "gone", 10⟩ [recordingRow]
        "r1" "s1" "room" "999999" "mix").store :=
  stop_upstream_failure_marks_failed _ _ _ _ _ _ _ recordingRow "gone"
    (by decide) (by decide) (by decide) (by decide) rfl (by simp)
    (by decide) rfl

/-- Counterexample to claim C1: a stop on a row already in the terminal
state `stopped` still issues the upstream stop call, and the stored record
does not stay unchanged (`stopped_at` is overwritten). -/
theorem stop_terminal_counterexample :
    (stop_recording stopEnvOkAt10 [stoppedRow]
      "r1" "s1" "room" "999999" "mix").upstreamCalled = true ∧
    (stop_recording stopEnvOkAt10 [stoppedRow]
      "r1" "s1" "room" "999999" "mix").store ≠ [stoppedRow] := by
  decide

/-- Amended C1: a second stop on an already `stopped` row re-invokes the
upstream service; when that call succeeds with no file list the row keeps
its terminal status `stopped` and its stored file-key list, but its
`stopped_at` is overwritten with the second call instant. -/
theorem stop_terminal_reinvokes_upstream (env : StopEnv)
    (store : List RecordingRec) (rid sd ch uid mode : String)
    (resp : StopResp) (r : RecordingRec)
    (hrid : rid ≠ "") (hsd : sd ≠ "") (hch : ch ≠ "") (huid : uid ≠ "")
    (hok : env.stopR = .ok resp) (hfl : stopFileKeys resp = none)
    (hr : r ∈ store) (hm : recMatches rid sd r = true)
    (hst : r.status = "stopped") :
    (stop_recording env store rid sd ch uid mode).upstreamCalled = true ∧
    (stop_recording env store rid sd ch uid mode).response.isOk = true ∧
    { r with stopped_at := some env.now } ∈
      (stop_recording env store rid sd ch uid mode).store := by
  unfold stop_recording
  rw [if_neg (by simp [hrid, hsd, hch, huid]), hok]
  refine ⟨rfl, rfl, ?_⟩
  have key : ({ r with stopped_at := some env.now }) =
      (fun x => if recMatches rid sd x then
          match stopFileKeys resp with
          | some l => { x with stopped_at := some env.now,
                               status := "stopped", s3_file_list := some l }
          | none => { x with stopped_at := some env.now, status := "stopped" }
        else x) r := by
    simp only [hm, hfl, if_true]
    cases r
    simp_all
  rw [key]
  exact List.mem_map_of_mem _ hr

/-- Witness for amended C1: the concrete repeated stop. -/
theorem stop_terminal_reinvokes_upstream_witness :
    (stop_recording stopEnvOkAt10 [stoppedRow]
      "r1" "s1" "room" "999999" "mix").upstreamCalled = true ∧
    (stop_recording stopEnvOkAt10 [stoppedRow]
      "r1" "s1" "room" "999999" "mix").response.isOk = true ∧
    { stoppedRow with stopped_at := some 10 } ∈
      (stop_recording stopEnvOkAt10 [stoppedRow]
        "r1" "s1" "room" "999999" "mix").store :=
  stop_terminal_reinvokes_upstream _ _ _ _ _ _ _ ⟨some ⟨none⟩⟩ stoppedRow
    (by decide) (by decide) (by decide) (by decide) rfl rfl (by simp)
    (by decide) rfl

/-- Mapping a function that fixes every element of a list is the identity. -/
theorem map_id_of_eq {α : Type} (l : List α) (f : α → α)
    (h : ∀ x ∈ l, f x = x) : l.map f = l := by
  induction l with
  | nil => rfl
  | cons a as ih =>
    simp only [List.map_cons]
    rw [h a (List.mem_cons_self a as),
        ih (fun x hx => h x (List.mem_cons_of_mem a hx))]

/-- Counterexample to claim C6: a stop whose identifiers match no stored
row does not fail with NotFound before the upstream call — it issues the
upstream call and returns success. -/
theorem stop_unknown_session_counterexample :
    (stop_recording stopEnvOkAt10 []
      "rX" "sX" "ch" "42" "mix").response.isOk = true ∧
    (stop_recording stopEnvOkAt10 []
      "rX" "sX" "ch" "42" "mix").upstreamCalled = true := by
  decide

/-- Amended C6: stop performs no local existence check: with no matching
row it still issues the upstream call, leaves the store unchanged, and its
result mirrors the upstream outcome alone. -/
theorem stop_unknown_session_no_check (env : StopEnv)
    (store : List RecordingRec) (rid sd ch uid mode : String)
    (hrid : rid ≠ "") (hsd : sd ≠ "") (hch : ch ≠ "") (huid : uid ≠ "")
    (habs : ∀ r ∈ store, recMatches rid sd r = false) :
    (stop_recording env store rid sd ch uid mode).upstreamCalled = true ∧
    (stop_recording env store rid sd ch uid mode).store = store ∧
    ((stop_recording env store rid sd ch uid mode).response.isOk = true ↔
      ∃ resp, env.stopR = .ok resp) := by
  unfold stop_recording
  rw [if_neg (by simp [hrid, hsd, hch, huid])]
  cases hsr : env.stopR with
  | ok resp =>
    refine ⟨rfl, ?_, ?_⟩
    · exact map_id_of_eq store _ (fun x hx => by simp [habs x hx])
    · simp [ApiResp.isOk]
  | error e =>
    refine ⟨rfl, ?_, ?_⟩
    · exact map_id_of_eq store _ (fun x hx => by simp [habs x hx])
    · simp [ApiResp.isOk]

/-- Witness for amended C6: a stop against the empty store. -/
theorem stop_unknown_session_no_check_witness :
    (stop_recording stopEnvOkAt10 []
      "rX" "sX" "ch" "42" "mix").upstreamCalled = true ∧
    (stop_recording stopEnvOkAt10 []
      "rX" "sX" "ch" "42" "mix").store = [] ∧
    ((stop_recording stopEnvOkAt10 []
      "rX" "sX" "ch" "42" "mix").response.isOk = true ↔
      ∃ resp, stopEnvOkAt10.stopR = .ok resp) :=
  stop_unknown_session_no_check _ _ _ _ _ _ _
    (by decide) (by decide) (by decide) (by decide) (by simp)

/-- Counterexample to claim C7: a query whose identifiers are unknown
locally (the store is empty) still succeeds — there is no local lookup and
no NotFound failure. -/
theorem query_unknown_session_counterexample :
    (query_recording (.ok ⟨some "payload"⟩) []
      "rX" "sX" "mix").response.isOk = true := by
  decide

/-- Amended C7: query never mutates the store, and after parameter
validation its outcome mirrors the upstream call alone — an unknown session
id is never detected locally. -/
theorem query_never_mutates_no_local_check (env : Except String QueryResp)
    (store : List RecordingRec) (rid sd mode : String)
    (hrid : rid ≠ "") (hsd : sd ≠ "") :
    (query_recording env store rid sd mode).store = store ∧
    ((query_recording env store rid sd mode).response.isOk = true ↔
      ∃ q, env = .ok q) := by
  refine ⟨query_store_eq env store rid sd mode, ?_⟩
  unfold query_recording
  rw [if_neg (by simp [hrid, hsd])]
  cases env with
  | ok q => simp [ApiResp.isOk]
  | error e => simp [ApiResp.isOk]

/-- Witness for amended C7: a concrete query against the empty store. -/
theorem query_never_mutates_no_local_check_witness :
    (query_recording (.ok ⟨some "p"⟩) [] "r" "s" "mix").store = [] ∧
    ((query_recording (.ok ⟨some "p"⟩) [] "r" "s" "mix").response.isOk = true ↔
      ∃ q, (Except.ok ⟨some "p"⟩ : Except String QueryResp) = .ok q) :=
  query_never_mutates_no_local_check _ _ _ _ _ (by decide) (by decide)

/-- Claim C9: file listing is total and partitioning — each filtered list
is exactly the suffix-filter of `all_files` (hence in the same order) — and
a ClientError is swallowed into four empty lists, so playback resolution
returns none instead of propagating the storage failure. -/
theorem list_recording_files_partitions :
    (∀ o : S3ListOutcome,
      (list_recording_files o).mp4_files =
        (list_recording_files o).all_files.filter (fun f => strEndsWith f ".mp4") ∧
      (list_recording_files o).m3u8_files =
        (list_recording_files o).all_files.filter (fun f => strEndsWith f ".m3u8") ∧
      (list_recording_files o).ts_files =
        (list_recording_files o).all_files.filter (fun f => strEndsWith f ".ts")) ∧
    (∀ msg, list_recording_files (S3ListOutcome.clientError msg) =
      ⟨[], [], [], []⟩) ∧
    (∀ msg signEnv,
      get_recording_playback_url (S3ListOutcome.clientError msg) signEnv =
        none) := by
  refine ⟨?_, fun msg => rfl, fun msg signEnv => rfl⟩
  intro o
  cases o with
  | clientError msg => exact ⟨rfl, rfl, rfl⟩
  | ok c =>
    cases c with
    | none => exact ⟨rfl, rfl, rfl⟩
    | some keys => exact ⟨rfl, rfl, rfl⟩

/-- Claim C10: when a matching mp4 key exists but presigning it raises a
ClientError, the resolver still returns a dict — its `url` field is `None`
while `type` and `mime_type` are populated. -/
theorem playback_url_none_on_signing_failure (keys : List String)
    (signEnv : String → Except String String) (f : String) (fs : List String)
    (hmp4 : (list_recording_files (.ok (some keys))).mp4_files = f :: fs)
    (hs : ∃ e, signEnv f = .error e) :
    get_recording_playback_url (.ok (some keys)) signEnv =
      some ⟨none, "mp4", "video/mp4"⟩ := by
  unfold get_recording_playback_url
  simp only [hmp4]
  obtain ⟨e, he⟩ := hs
  simp [generate_presigned_url, he]

/-- Witness for C10: one mp4 key whose presigning fails. -/
theorem playback_url_none_on_signing_failure_witness :
    get_recording_playback_url (.ok (some ["abc.mp4"]))
        (fun _ => .error "denied") = some ⟨none, "mp4", "video/mp4"⟩ :=
  playback_url_none_on_signing_failure ["abc.mp4"] _ "abc.mp4" []
    (by decide) ⟨"denied", rfl⟩

/-- The running minimum of Python `min(key=len)` never exceeds the seed nor
any later element. -/
theorem pyMinLenGo_le (x : String) (l : List String) :
    (pyMinLenGo x l).length ≤ x.length ∧
    ∀ y ∈ l, (pyMinLenGo x l).length ≤ y.length := by
  induction l generalizing x with
  | nil => exact ⟨Nat.le_refl _, by simp⟩
  | cons y ys ih =>
    unfold pyMinLenGo
    by_cases hlt : y.length < x.length
    · rw [if_pos hlt]
      obtain ⟨h1, h2⟩ := ih y
      refine ⟨Nat.le_trans h1 (Nat.le_of_lt hlt), ?_⟩
      intro z hz
      rcases List.mem_cons.mp hz with rfl | hz2
      · exact h1
      · exact h2 z hz2
    · rw [if_neg hlt]
      obtain ⟨h1, h2⟩ := ih x
      refine ⟨h1, ?_⟩
      intro z hz
      rcases List.mem_cons.mp hz with rfl | hz2
      · exact Nat.le_trans h1 (Nat.le_of_not_lt hlt)
      · exact h2 z hz2

/-- Python `min(key=len)` picks the FIRST element of minimal length: every
element strictly before the winner is strictly longer. -/
theorem pyMinLenGo_first (x : String) (l : List String) :
    ∃ a b, x :: l = a ++ (pyMinLenGo x l) :: b ∧
      ∀ z ∈ a, (pyMinLenGo x l).length < z.length := by
  induction l generalizing x with
  | nil => exact ⟨[], [], rfl, by simp⟩
  | cons y ys ih =>
    unfold pyMinLenGo
    by_cases hlt : y.length < x.length
    · rw [if_pos hlt]
      obtain ⟨a, b, hab, hfirst⟩ := ih y
      refine ⟨x :: a, b, ?_, ?_⟩
      · rw [List.cons_append, ← hab]
      · intro z hz
        rcases List.mem_cons.mp hz with rfl | hz2
        · exact Nat.lt_of_le_of_lt (pyMinLenGo_le y ys).1 hlt
        · exact hfirst z hz2
    · rw [if_neg hlt]
      obtain ⟨a, b, hab, hfirst⟩ := ih x
      cases a with
      | nil =>
        simp only [List.nil_append] at hab
        injection hab with h1 h2
        refine ⟨[], y :: ys, ?_, by simp⟩
        rw [List.nil_append, ← h1]
      | cons a0 as =>
        simp only [List.cons_append] at hab
        injection hab with h1 h2
        refine ⟨x :: y :: as, b, ?_, ?_⟩
        · rw [List.cons_append, List.cons_append, ← h2]
        · intro z hz
          have hx_in : x ∈ a0 :: as := by
            rw [← h1]
            exact List.mem_cons_self _ _
          have hgx : (pyMinLenGo x ys).length < x.length := hfirst x hx_in
          rcases List.mem_cons.mp hz with rfl | hz2
          · exact hgx
          · rcases List.mem_cons.mp hz2 with rfl | hz3
            · exact Nat.lt_of_lt_of_le hgx (Nat.le_of_not_lt hlt)
            · exact hfirst z (List.mem_cons_of_mem _ hz3)

/-- Counterexample to claim C4: on the listing `["x/bb.m3u8", "x/aa.m3u8"]`
(two m3u8 keys of equal length) the resolver picks the FIRST of minimal
length in listing order, `x/bb.m3u8`, not the lexicographically smallest
`x/aa.m3u8` the claim promises. -/
theorem playback_tiebreak_counterexample :
    get_recording_playback_url (.ok (some ["x/bb.m3u8", "x/aa.m3u8"]))
        (fun k => .ok k) =
      some ⟨some "x/bb.m3u8", "hls", "application/x-mpegURL"⟩ ∧
    claimHlsPick ["x/bb.m3u8", "x/aa.m3u8"] = some "x/aa.m3u8" ∧
    ("x/bb.m3u8" : String) ≠ "x/aa.m3u8" := by
  refine ⟨by decide, by decide, by decide⟩

/-- Amended C4: the resolver selects the first key of the listing ending in
`.mp4` (kind mp4) when one exists; otherwise the first key of minimal
length among the `.m3u8` keys, in listing order (kind hls) — this is the
lexicographically smallest among the shortest only when the listing is
sorted; otherwise it returns none. -/
theorem playback_selection_characterized (keys : List String)
    (signEnv : String → Except String String) :
    (∀ f fs, (list_recording_files (.ok (some keys))).mp4_files = f :: fs →
      get_recording_playback_url (.ok (some keys)) signEnv =
        some ⟨generate_presigned_url (signEnv f), "mp4", "video/mp4"⟩ ∧
      strEndsWith f ".mp4" = true ∧
      ∃ a b, keys = a ++ f :: b ∧ ∀ z ∈ a, ¬ strEndsWith z ".mp4" = true) ∧
    (∀ m, (list_recording_files (.ok (some keys))).mp4_files = [] →
      pyMinLen (list_recording_files (.ok (some keys))).m3u8_files = some m →
      get_recording_playback_url (.ok (some keys)) signEnv =
        some ⟨generate_presigned_url (signEnv m), "hls",
              "application/x-mpegURL"⟩ ∧
      m ∈ (list_recording_files (.ok (some keys))).m3u8_files ∧
      (∀ z ∈ (list_recording_files (.ok (some keys))).m3u8_files,
        m.length ≤ z.length) ∧
      ∃ a b, (list_recording_files (.ok (some keys))).m3u8_files =
          a ++ m :: b ∧ ∀ z ∈ a, m.length < z.length) ∧
    ((list_recording_files (.ok (some keys))).mp4_files = [] →
      (list_recording_files (.ok (some keys))).m3u8_files = [] →
      get_recording_playback_url (.ok (some keys)) signEnv = none) := by
  refine ⟨?_, ?_, ?_⟩
  · intro f fs h
    refine ⟨?_, ?_, ?_⟩
    · unfold get_recording_playback_url
      simp only [h]
    · have := List.filter_eq_cons_iff.mp h
      exact this.choose_spec.choose_spec.2.2.1
    · obtain ⟨a, b, hab, hnot, hpf, hrest⟩ := List.filter_eq_cons_iff.mp h
      exact ⟨a, b, hab, hnot⟩
  · intro m h0 hm
    refine ⟨?_, ?_⟩
    · unfold get_recording_playback_url
      simp only [h0, hm]
    · rcases hcase : (list_recording_files (.ok (some keys))).m3u8_files with
        _ | ⟨x, xs⟩
      · rw [hcase] at hm
        simp [pyMinLen] at hm
      · rw [hcase] at hm
        unfold pyMinLen at hm
        injection hm with hm1
        subst hm1
        obtain ⟨a, b, hab, hfirst⟩ := pyMinLenGo_first x xs
        obtain ⟨h1, h2⟩ := pyMinLenGo_le x xs
        refine ⟨?_, ?_, a, b, hab, hfirst⟩
        · rw [hab]
          simp
        · intro z hz
          rcases List.mem_cons.mp hz with rfl | hz2
          · exact h1
          · exact h2 z hz2
  · intro h0 h1
    unfold get_recording_playback_url
    simp only [h0, h1]
    rfl

/-- Witness for amended C4: with one mp4 key present the resolver picks
the first mp4 key of the listing. -/
theorem playback_selection_characterized_witness :
    get_recording_playback_url (.ok (some ["d/m.m3u8", "d/v.mp4"]))
        (fun k => .ok k) =
      some ⟨generate_presigned_url (Except.ok "d/v.mp4"), "mp4", "video/mp4"⟩ ∧
    strEndsWith "d/v.mp4" ".mp4" = true ∧
    ∃ a b, ["d/m.m3u8", "d/v.mp4"] = a ++ "d/v.mp4" :: b ∧
      ∀ z ∈ a, ¬ strEndsWith z ".mp4" = true :=
  (playback_selection_characterized ["d/m.m3u8", "d/v.mp4"]
    (fun k => .ok k)).1 "d/v.mp4" [] (by decide)
